import Mathlib

/-!
Shallow embedding of the BerryBot order-fulfillment core
(`database/managers/buyer_order_manager.py`, `utils/statuses.py`,
`utils/scheduler_jobs.py`, `handlers/client.py`, `handlers/order_processing.py`)
and proofs of the frozen claims about it.

The database is modelled as association lists keyed by row id; each manager
method becomes a pure state transformer executing the same SQL effects in the
same order, with the same `WHERE` guards.
-/

namespace BerryBot

/-- Order statuses, mirroring the `order_status` enum of
`database/models/buyer_orders.py` / `utils/statuses.py`
(including the deprecated `waiting`). -/
inductive Status
  | waiting
  | pending_payment
  | processing
  | ready
  | transferring
  | finished
  | cancelled
deriving DecidableEq, Repr

/-- Fulfillment method (`delivery_way` enum). -/
inductive Way
  | pickup
  | delivery
deriving DecidableEq, Repr

/-- `utils/statuses.py`: ACTIVE_STATUSES. -/
def ACTIVE_STATUSES : List Status :=
  [.pending_payment, .processing, .ready, .transferring]

/-- `utils/statuses.py`: FINISHED_STATUSES. -/
def FINISHED_STATUSES : List Status :=
  [.finished, .cancelled]

/-- `utils/statuses.py`: CANCELLABLE_STATUSES. -/
def CANCELLABLE_STATUSES : List Status :=
  [.pending_payment, .processing, .ready]

/-- `utils/statuses.py`: ALLOWED_FROM (statuses one may come from, per target). -/
def ALLOWED_FROM : Status → List Status
  | .ready => [.processing]
  | .transferring => [.processing]
  | .finished => [.ready, .transferring]
  | _ => []

/-- A `product_position` row (the fields the orchestrator touches). -/
structure ProductPosition where
  title : String
  price : Int
  quantity : Int
deriving DecidableEq, Repr

/-- A `buyer_orders` row. -/
structure Order where
  buyer_id : Nat
  status : Status
  delivery_way : Way
  delivery_address : Option String
  used_bonus : Int
  registration_date : Nat
  delivery_date : Option Nat
  delivery_cost : Int
  finished_at : Option Nat
  yandex_claim_id : Option String
  payment_info : Option String
  payment_date : Option Nat
deriving DecidableEq, Repr

/-- An `order_items` row. -/
structure OrderItem where
  order_id : Nat
  position_id : Nat
  qty : Int
deriving DecidableEq, Repr

/-- The database state: `user_info` (tg_user_id to internal id), stock,
`buyer_info.bonus_num` keyed by internal user id, orders and order items. -/
structure DBState where
  users : List (Nat × Nat)
  stock : List (Nat × ProductPosition)
  bonuses : List (Nat × Int)
  orders : List (Nat × Order)
  order_items : List OrderItem
  next_order_id : Nat
deriving DecidableEq, Repr

/-- Lookup by key in an association list (first match, like a SQL
`WHERE id = k` on a primary key). -/
def alookup {α : Type} (k : Nat) : List (Nat × α) → Option α
  | [] => none
  | (k', v) :: t => if k' = k then some v else alookup k t

/-- `UPDATE ... WHERE id = k`: apply `f` to every row with key `k`. -/
def aupdate {α : Type} (k : Nat) (f : α → α) : List (Nat × α) → List (Nat × α)
  | [] => []
  | (k', v) :: t => (k', if k' = k then f v else v) :: aupdate k f t

/-- The `order_items` rows of one order
(`SELECT position_id, qty FROM order_items WHERE order_id = $1`). -/
def itemsOf (oid : Nat) (s : DBState) : List OrderItem :=
  s.order_items.filter (fun it => it.order_id = oid)

/-- `UPDATE product_position SET quantity = quantity + qty WHERE id = position_id`,
executed for every item (the `executemany` in `cancel_order`). -/
def returnItems (items : List OrderItem) (stock : List (Nat × ProductPosition)) :
    List (Nat × ProductPosition) :=
  items.foldl
    (fun st it => aupdate it.position_id (fun p => { p with quantity := p.quantity + it.qty }) st)
    stock

/-- `BuyerOrderManager.cancel_order`: inside one transaction, re-read the order
(`FOR UPDATE`); if it is missing or not in an active status, do nothing;
otherwise re-increment every reserved position, re-credit `used_bonus` to the
buyer when it is positive, and set the status to `cancelled`. -/
def cancel_order (oid : Nat) (s : DBState) : DBState :=
  match alookup oid s.orders with
  | none => s
  | some o =>
    if o.status ∈ ACTIVE_STATUSES then
      { s with
        stock := returnItems (itemsOf oid s) s.stock
        bonuses :=
          if o.used_bonus > 0 then
            aupdate o.buyer_id (fun b => b + o.used_bonus) s.bonuses
          else s.bonuses
        orders := aupdate oid (fun o' => { o' with status := .cancelled }) s.orders }
    else s

/-- The structured errors of `create_order` (the source returns the Russian
message texts; we keep the ids they enumerate). -/
inductive CreateErr
  | emptyCart
  | userNotFound
  | invalidPositions (missing : List Nat)
  | insufficientStock (lack : List Nat)
deriving DecidableEq, Repr

/-- The goods total computed in step 3 of `create_order`:
`order_total += stock[pid]["price"] * qty` over the cart. -/
def goodsTotal (items : List (Nat × Int)) (stock : List (Nat × ProductPosition)) : Int :=
  items.foldl
    (fun acc pq =>
      acc + (match alookup pq.1 stock with
             | some p => p.price * pq.2
             | none => 0))
    0

/-- `BuyerOrderManager.create_order`, one transaction:
empty-cart check, resolve `tg_user_id`, lock the referenced positions,
batch-validate missing ids then shortfalls, clamp the bonus
(`safe_bonus = min(max(int(used_bonus or 0), 0), cur_bonus, order_total)`),
insert the order row (note: the INSERT stores the raw `used_bonus`, not
`safe_bonus`), insert the items, decrement the stock, and debit
`GREATEST(bonus_num - safe_bonus, 0)` when `safe_bonus > 0`.
Returns `((order_id, error), state)`. -/
def create_order (tg : Nat) (items : List (Nat × Int)) (way : Way)
    (address : Option String) (used_bonus : Int) (delivery_cost : Int)
    (today : Nat) (s : DBState) :
    (Option Nat × Option CreateErr) × DBState :=
  if items.isEmpty then ((none, some .emptyCart), s) else
  match alookup tg s.users with
  | none => ((none, some .userNotFound), s)
  | some uid =>
    let missing := (items.map Prod.fst).filter (fun pid => (alookup pid s.stock).isNone)
    if missing.isEmpty then
      let lack :=
        (items.filter (fun pq =>
          match alookup pq.1 s.stock with
          | some p => pq.2 > p.quantity
          | none => false)).map Prod.fst
      if lack.isEmpty then
        let order_total := goodsTotal items s.stock
        let cur_bonus := (alookup uid s.bonuses).getD 0
        let safe_bonus := min (min (max used_bonus 0) cur_bonus) order_total
        let oid := s.next_order_id
        let newOrder : Order :=
          { buyer_id := uid
            status := .pending_payment
            delivery_way := way
            delivery_address := address
            used_bonus := used_bonus
            registration_date := today
            delivery_date := if way = .pickup then none else some today
            delivery_cost := delivery_cost
            finished_at := none
            yandex_claim_id := none
            payment_info := none
            payment_date := none }
        ((some oid, none),
          { s with
            orders := s.orders ++ [(oid, newOrder)]
            order_items := s.order_items ++ items.map (fun pq => ⟨oid, pq.1, pq.2⟩)
            stock := items.foldl
              (fun st pq => aupdate pq.1 (fun p => { p with quantity := p.quantity - pq.2 }) st)
              s.stock
            bonuses :=
              if safe_bonus > 0 then
                aupdate uid (fun b => max (b - safe_bonus) 0) s.bonuses
              else s.bonuses
            next_order_id := s.next_order_id + 1 })
      else ((none, some (.insufficientStock lack)), s)
    else ((none, some (.invalidPositions missing)), s)

/-- The allowed-from set computed inside `admin_set_status`: `ALLOWED_FROM`,
overridden for `finished` by the fulfillment method. -/
def allowedFromTable (to_status : Status) (way : Way) : List Status :=
  if to_status = .finished then
    (if way = .pickup then [.ready] else [.transferring])
  else ALLOWED_FROM to_status

/-- `BuyerOrderManager.admin_set_status`: read the current status and
delivery way, compute the allowed-from set, reject when the current status is
not in it; otherwise run the guarded UPDATE (`WHERE status = ANY(allowed_from)`)
setting the status and, for `finished`/`cancelled`, `finished_at`. -/
def admin_set_status (oid : Nat) (to_status : Status) (today : Nat) (s : DBState) :
    Bool × DBState :=
  match alookup oid s.orders with
  | none => (false, s)
  | some o =>
    let allowed_from := allowedFromTable to_status o.delivery_way
    if o.status ∈ allowed_from then
      (true,
        { s with
          orders := aupdate oid
            (fun o' =>
              if o'.status ∈ allowed_from then
                { o' with
                  status := to_status
                  finished_at :=
                    if to_status = .finished ∨ to_status = .cancelled then some today
                    else o'.finished_at }
              else o')
            s.orders })
    else (false, s)

/-- `BuyerOrderManager.admin_cancel`:
`UPDATE ... SET status = cancelled, finished_at = CURRENT_DATE WHERE id AND
status = ANY(ACTIVE_STATUSES)`. The source returns
`tag.upper().startswith("UPDATE")` on the asyncpg command tag `UPDATE n`,
which is `True` for `n = 0` as well. -/
def admin_cancel (oid : Nat) (today : Nat) (s : DBState) : Bool × DBState :=
  let n : Nat :=
    match alookup oid s.orders with
    | some o => if o.status ∈ ACTIVE_STATUSES then 1 else 0
    | none => 0
  (("UPDATE " ++ toString n).startsWith "UPDATE",
    { s with
      orders := aupdate oid
        (fun o =>
          if o.status ∈ ACTIVE_STATUSES then
            { o with status := .cancelled, finished_at := some today }
          else o)
        s.orders })

/-- `BuyerOrderManager.mark_order_as_paid`:
`UPDATE ... SET status = processing, payment_date = now, payment_info = $1
WHERE id = $2 AND status = pending_payment`. -/
def mark_order_as_paid (oid : Nat) (payment_json : String) (now : Nat)
    (s : DBState) : DBState :=
  { s with
    orders := aupdate oid
      (fun o =>
        if o.status = .pending_payment then
          { o with
            status := .processing
            payment_date := some now
            payment_info := some payment_json }
        else o)
      s.orders }

/-- `BuyerOrderManager.mark_order_as_paid_by_bonus`: the same guarded UPDATE
without payment metadata; returns whether one row was updated. -/
def mark_order_as_paid_by_bonus (oid : Nat) (now : Nat) (s : DBState) :
    Bool × DBState :=
  ((match alookup oid s.orders with
    | some o => decide (o.status = .pending_payment)
    | none => false),
    { s with
      orders := aupdate oid
        (fun o =>
          if o.status = .pending_payment then
            { o with status := .processing, payment_date := some now }
          else o)
        s.orders })

/-- `BuyerOrderManager.save_claim_id`:
`UPDATE buyer_orders SET yandex_claim_id = $1 WHERE id = $2` (no guard). -/
def save_claim_id (oid : Nat) (cid : String) (s : DBState) : DBState :=
  { s with
    orders := aupdate oid (fun o => { o with yandex_claim_id := some cid }) s.orders }

/-- The provider-to-local status map of `sync_order_status_from_yandex`. -/
def yandex_to_local_map (y : String) : Option Status :=
  if y = "delivered_finish" then some .finished
  else if y = "returned_finish" then some .finished
  else if y = "failed" then some .cancelled
  else if y = "cancelled" then some .cancelled
  else if y = "cancelled_with_payment" then some .cancelled
  else if y = "cancelled_by_taxi" then some .cancelled
  else none

/-- `BuyerOrderManager.sync_order_status_from_yandex`: map the provider status;
for non-terminal provider statuses do nothing; otherwise
`UPDATE ... SET status = $1, finished_at = CURRENT_DATE
WHERE id = $2 AND status NOT IN (finished, cancelled) RETURNING id`,
returning whether a row was updated. -/
def sync_order_status_from_yandex (oid : Nat) (y : String) (today : Nat)
    (s : DBState) : Bool × DBState :=
  match yandex_to_local_map y with
  | none => (false, s)
  | some st =>
    ((match alookup oid s.orders with
      | some o => decide (o.status ≠ .finished ∧ o.status ≠ .cancelled)
      | none => false),
      { s with
        orders := aupdate oid
          (fun o =>
            if o.status ≠ .finished ∧ o.status ≠ .cancelled then
              { o with status := st, finished_at := some today }
            else o)
          s.orders })

/-- Modelled from the spec: `BuyerOrderManager.cancel_old_pending_orders` is
scheduled from `main.py` (every 5 minutes, with the 15-minute timeout) but its
body is not among the sources; per the spec it cancels, one by one, any order
still `pending_payment` after the configurable timeout, releasing its
reservation, re-checking `status = pending_payment` at cancellation time (the
optimistic guard). This is the per-order step. -/
def expire_if_stale_pending (timeout now : Nat) (oid : Nat) (s : DBState) : DBState :=
  match alookup oid s.orders with
  | some o =>
    if o.status = .pending_payment ∧ o.registration_date + timeout < now then
      cancel_order oid s
    else s
  | none => s

/-- Modelled from the spec: the stale pending-payment expiry job — apply
`expire_if_stale_pending` to every order id. -/
def cancel_old_pending_orders (timeout now : Nat) (s : DBState) : DBState :=
  (s.orders.map Prod.fst).foldl
    (fun st oid => expire_if_stale_pending timeout now oid st) s

/-- Outcome of one `get_claim_info` call as seen by the scheduler job:
a payload with a `status`, a falsy payload, or a raised exception. -/
inductive ClaimLookup
  | ok (status : String)
  | notFound
  | raised
deriving DecidableEq, Repr

/-- One row of the list the delivery sync job iterates over
(`order['id']`, `order['yandex_claim_id']`). -/
structure JobOrderRow where
  id : Nat
  yandex_claim_id : Option String
deriving DecidableEq, Repr

/-- `utils/scheduler_jobs.check_delivery_statuses`, on an arbitrary list of
active delivery orders (the selection query `get_active_yandex_deliveries` is
not among the sources, so the list is a parameter). Per row:
a `None` claim id cancels the order and then `return`s — ending the whole
loop; a falsy or raising `get_claim_info` logs and continues; otherwise the
provider status is fed to `sync_order_status_from_yandex` and the loop
continues. -/
def check_delivery_statuses (env : String → ClaimLookup) (today : Nat)
    (rows : List JobOrderRow) (s : DBState) : DBState :=
  match rows with
  | [] => s
  | r :: rest =>
    match r.yandex_claim_id with
    | none => cancel_order r.id s
    | some cid =>
      match env cid with
      | .notFound => check_delivery_statuses env today rest s
      | .raised => check_delivery_statuses env today rest s
      | .ok y =>
        check_delivery_statuses env today rest
          (sync_order_status_from_yandex r.id y today s).2

/-- A `get_cancellation_info` payload: `cancel_state` and the optional fee. -/
structure CancelInfo where
  cancel_state : String
  price : Option Int
deriving DecidableEq, Repr

/-- The delivery-provider responses consumed by the buyer's cancel handler:
`get_claim_info` (carrying the optional `version` field, defaulted to 1),
`get_cancellation_info`, and whether `cancel_claim` succeeds. -/
structure CancelEnv where
  claim_info : String → Option (Option Nat)
  cancel_info : String → Option CancelInfo
  cancel_claim : String → String → Nat → Bool

/-- The observable outcome of `handlers/client.order_cancel_yes`. -/
inductive CancelYesResult
  | orderNotFound
  | claimInfoUnavailable
  | rejectedNotFree (cancel_state : Option String) (price : Option Int)
  | providerCancelFailed
  | cancelledLocally
deriving DecidableEq, Repr

/-- `handlers/client.order_cancel_yes`: look the order up; with a claim id,
fetch the claim info (abort if unavailable), fetch the cancellation info and
reject with the structured reason unless `cancel_state == "free"`; if free,
cancel on the provider (aborting on failure) and only then call
`cancel_order` locally. Without a claim id, cancel locally at once. -/
def order_cancel_yes (env : CancelEnv) (oid : Nat) (s : DBState) :
    CancelYesResult × DBState :=
  match alookup oid s.orders with
  | none => (.orderNotFound, s)
  | some o =>
    match o.yandex_claim_id with
    | some cid =>
      match env.claim_info cid with
      | none => (.claimInfoUnavailable, s)
      | some version_field =>
        let current_version := version_field.getD 1
        match env.cancel_info cid with
        | none => (.rejectedNotFree none none, s)
        | some ci =>
          if ci.cancel_state = "free" then
            if env.cancel_claim cid "free" current_version then
              (.cancelledLocally, cancel_order oid s)
            else (.providerCancelFailed, s)
          else (.rejectedNotFree (some ci.cancel_state) ci.price, s)
    | none => (.cancelledLocally, cancel_order oid s)

/-- Buyer profile data used by the claim-creation helper. -/
structure BuyerProfile where
  address : Option String
deriving DecidableEq, Repr

/-- The external collaborators of
`handlers/order_processing.create_yandex_delivery_claim`: warehouse lookup,
buyer profile, geocoding, `create_claim` and `accept_claim`. -/
structure DeliveryEnv where
  warehouse_ok : Bool
  profile : Option BuyerProfile
  geocode : String → Option (Int × Int)
  create_claim : Option String
  accept_claim : String → Bool

/-- The observable outcome of `create_yandex_delivery_claim`. -/
inductive ClaimCreateResult
  | missingData
  | noItems
  | missingAddress
  | geocodeFailed
  | createFailed
  | acceptFailed
  | accepted
deriving DecidableEq, Repr

/-- `handlers/order_processing.create_yandex_delivery_claim`: gather order,
warehouse and profile (abort when any is missing), require order items and a
profile address, geocode it, call `create_claim`; on success call
`accept_claim`, and only when that also succeeds persist the claim id with
`save_claim_id`. Every failure path leaves the database untouched. -/
def create_yandex_delivery_claim (env : DeliveryEnv) (oid : Nat) (s : DBState) :
    ClaimCreateResult × DBState :=
  match alookup oid s.orders with
  | none => (.missingData, s)
  | some _ =>
    if env.warehouse_ok then
      match env.profile with
      | none => (.missingData, s)
      | some pr =>
        if (itemsOf oid s).isEmpty then (.noItems, s)
        else
          match pr.address with
          | none => (.missingAddress, s)
          | some addr =>
            match env.geocode addr with
            | none => (.geocodeFailed, s)
            | some _ =>
              match env.create_claim with
              | none => (.createFailed, s)
              | some cid =>
                if env.accept_claim cid then (.accepted, save_claim_id oid cid s)
                else (.acceptFailed, s)
    else (.missingData, s)

/-- Shorthand for building a `buyer_orders` row in concrete scenarios. -/
def mkOrder (buyer : Nat) (st : Status) (way : Way) (bonus : Int) (reg : Nat)
    (claim : Option String) : Order :=
  { buyer_id := buyer
    status := st
    delivery_way := way
    delivery_address := none
    used_bonus := bonus
    registration_date := reg
    delivery_date := none
    delivery_cost := 0
    finished_at := none
    yandex_claim_id := claim
    payment_info := none
    payment_date := none }

/-- C1 scenario: one position (price 10, quantity 1), buyer 100 (internal id 7)
with a bonus balance of 5. -/
def exC1 : DBState :=
  { users := [(100, 7)]
    stock := [(1, ⟨"pos", 10, 1⟩)]
    bonuses := [(7, 5)]
    orders := []
    order_items := []
    next_order_id := 1 }

/-- C2 scenario: order 1 stale in `pending_payment`. -/
def oC2 : Order := mkOrder 7 .pending_payment .pickup 0 0 none

/-- C2 scenario state. -/
def exC2 : DBState :=
  { users := [(100, 7)]
    stock := []
    bonuses := [(7, 0)]
    orders := [(1, oC2)]
    order_items := []
    next_order_id := 2 }

/-- C3 counterexample state: order 1 is in `transferring`. -/
def exC3 : DBState :=
  { users := []
    stock := []
    bonuses := []
    orders := [(1, mkOrder 7 .transferring .delivery 0 0 none)]
    order_items := []
    next_order_id := 2 }

/-- C3 witness order: a `finished` order. -/
def oC3w : Order := mkOrder 7 .finished .pickup 0 0 none

/-- C3 witness state. -/
def exC3w : DBState :=
  { users := []
    stock := []
    bonuses := [(7, 3)]
    orders := [(1, oC3w)]
    order_items := []
    next_order_id := 2 }

/-- C4 counterexample state: a delivery order in `processing`. -/
def exC4 : DBState :=
  { users := []
    stock := []
    bonuses := []
    orders := [(1, mkOrder 7 .processing .delivery 0 0 none)]
    order_items := []
    next_order_id := 2 }

/-- C4 witness order: a pickup order in `processing`. -/
def oC4w : Order := mkOrder 7 .processing .pickup 0 0 none

/-- C4 witness state. -/
def exC4w : DBState :=
  { users := []
    stock := []
    bonuses := []
    orders := [(1, oC4w)]
    order_items := []
    next_order_id := 2 }

/-- C5 witness state: position 1 (price 10, quantity 5), buyer 100 (id 7)
with a balance of 5. -/
def exC5 : DBState :=
  { users := [(100, 7)]
    stock := [(1, ⟨"pos", 10, 5⟩)]
    bonuses := [(7, 5)]
    orders := []
    order_items := []
    next_order_id := 1 }

/-- C7 failing input: orders 1 and 2 both active in `transferring`;
order 1 has no claim id, order 2 has claim `c2`. -/
def exC7 : DBState :=
  { users := []
    stock := []
    bonuses := []
    orders := [(1, mkOrder 7 .transferring .delivery 0 0 none),
               (2, mkOrder 8 .transferring .delivery 0 0 (some "c2"))]
    order_items := []
    next_order_id := 3 }

/-- C7 provider: claim `c2` reports the terminal status `delivered_finish`. -/
def envC7 : String → ClaimLookup :=
  fun c => if c = "c2" then .ok "delivered_finish" else .raised

/-- C7 job input rows, in list order. -/
def rowsC7 : List JobOrderRow := [⟨1, none⟩, ⟨2, some "c2"⟩]

/-- C8 witness order: order 1 carries delivery claim `c8`. -/
def oC8 : Order := mkOrder 7 .transferring .delivery 2 0 (some "c8")

/-- C8 witness state. -/
def exC8 : DBState :=
  { users := [(100, 7)]
    stock := [(1, ⟨"pos", 10, 0⟩)]
    bonuses := [(7, 1)]
    orders := [(1, oC8)]
    order_items := [⟨1, 1, 1⟩]
    next_order_id := 2 }

/-- C8 witness provider: cancellation of claim `c8` is `paid` (fee 100). -/
def envC8 : CancelEnv :=
  { claim_info := fun c => if c = "c8" then some (some 2) else none
    cancel_info := fun c => if c = "c8" then some ⟨"paid", some 100⟩ else none
    cancel_claim := fun _ _ _ => true }

/-- C9 witness order: a paid delivery order in `processing`, no claim id. -/
def oC9 : Order := mkOrder 7 .processing .delivery 0 0 none

/-- C9 witness state. -/
def exC9 : DBState :=
  { users := [(100, 7)]
    stock := [(1, ⟨"pos", 10, 0⟩)]
    bonuses := [(7, 0)]
    orders := [(1, oC9)]
    order_items := [⟨1, 1, 1⟩]
    next_order_id := 2 }

/-- C9 witness collaborators: `create_claim` succeeds with claim `cl`,
`accept_claim` fails. -/
def envC9 : DeliveryEnv :=
  { warehouse_ok := true
    profile := some ⟨some "addr"⟩
    geocode := fun _ => some (1, 2)
    create_claim := some "cl"
    accept_claim := fun _ => false }

/-- All fields of an order other than `status` and `finished_at`
(the frame of `sync_order_status_from_yandex`). -/
def Order.frame (o : Order) :
    Nat × Way × Option String × Int × Nat × Option Nat × Int ×
      Option String × Option String × Option Nat :=
  (o.buyer_id, o.delivery_way, o.delivery_address, o.used_bonus,
   o.registration_date, o.delivery_date, o.delivery_cost,
   o.yandex_claim_id, o.payment_info, o.payment_date)

/-! ### Association-list lemmas -/

theorem alookup_aupdate_eq {α : Type} (k : Nat) (f : α → α) (l : List (Nat × α)) :
    alookup k (aupdate k f l) = (alookup k l).map f := by
  induction l with
  | nil => rfl
  | cons hd t ih =>
    obtain ⟨k', v⟩ := hd
    by_cases h : k' = k <;> simp [alookup, aupdate, h, ih]

theorem alookup_aupdate_ne {α : Type} {k k' : Nat} (h : k' ≠ k) (f : α → α)
    (l : List (Nat × α)) : alookup k (aupdate k' f l) = alookup k l := by
  induction l with
  | nil => rfl
  | cons hd t ih =>
    obtain ⟨k'', v⟩ := hd
    by_cases h1 : k'' = k'
    · subst h1
      simp [alookup, aupdate, h, ih]
    · simp only [aupdate, if_neg h1, alookup]
      by_cases h2 : k'' = k
      · simp [h2]
      · simp [h2, ih]

theorem aupdate_keys {α : Type} (k : Nat) (f : α → α) (l : List (Nat × α)) :
    (aupdate k f l).map Prod.fst = l.map Prod.fst := by
  induction l with
  | nil => rfl
  | cons hd t ih =>
    obtain ⟨k', v⟩ := hd
    simp [aupdate, ih]

theorem aupdate_of_not_mem {α : Type} {k : Nat} {l : List (Nat × α)}
    (h : k ∉ l.map Prod.fst) (f : α → α) : aupdate k f l = l := by
  induction l with
  | nil => rfl
  | cons hd t ih =>
    obtain ⟨k', v⟩ := hd
    simp only [List.map_cons, List.mem_cons] at h
    push_neg at h
    have h1 : ¬(k' = k) := fun hh => h.1 hh.symm
    simp [aupdate, h1, ih h.2]

theorem alookup_mem_keys {α : Type} {k : Nat} {l : List (Nat × α)} {v : α}
    (h : alookup k l = some v) : k ∈ l.map Prod.fst := by
  induction l with
  | nil => simp [alookup] at h
  | cons hd t ih =>
    obtain ⟨k', v'⟩ := hd
    by_cases h1 : k' = k
    · simp [h1]
    · simp only [alookup, if_neg h1] at h
      simp [ih h]

theorem aupdate_fix {α : Type} {k : Nat} {l : List (Nat × α)} {f : α → α}
    (hnd : (l.map Prod.fst).Nodup)
    (h : ∀ v, alookup k l = some v → f v = v) : aupdate k f l = l := by
  induction l with
  | nil => rfl
  | cons hd t ih =>
    obtain ⟨k', v⟩ := hd
    simp only [List.map_cons, List.nodup_cons] at hnd
    by_cases h1 : k' = k
    · subst h1
      have hv : f v = v := h v (by simp [alookup])
      have ht : aupdate k' f t = t := aupdate_of_not_mem hnd.1 f
      simp [aupdate, hv, ht]
    · have ht : aupdate k f t = t :=
        ih hnd.2 (fun v' hv' => h v' (by simp [alookup, h1, hv']))
      simp [aupdate, h1, ht]

/-! ### Frame lemmas for the cancellation/expiry operations -/

theorem cancel_order_lookup_ne {oid oid' : Nat} (h : oid' ≠ oid) (s : DBState) :
    alookup oid (cancel_order oid' s).orders = alookup oid s.orders := by
  cases halt : alookup oid' s.orders with
  | none => simp only [cancel_order, halt]
  | some o =>
    by_cases hact : o.status ∈ ACTIVE_STATUSES
    · simp only [cancel_order, halt, if_pos hact]
      exact alookup_aupdate_ne h _ _
    · simp only [cancel_order, halt, if_neg hact]

theorem cancel_order_keys (oid : Nat) (s : DBState) :
    (cancel_order oid s).orders.map Prod.fst = s.orders.map Prod.fst := by
  cases halt : alookup oid s.orders with
  | none => simp only [cancel_order, halt]
  | some o =>
    by_cases hact : o.status ∈ ACTIVE_STATUSES
    · simp only [cancel_order, halt, if_pos hact]
      exact aupdate_keys _ _ _
    · simp only [cancel_order, halt, if_neg hact]

theorem expire_lookup_ne {timeout now oid oid' : Nat} (h : oid' ≠ oid) (s : DBState) :
    alookup oid (expire_if_stale_pending timeout now oid' s).orders
      = alookup oid s.orders := by
  cases halt : alookup oid' s.orders with
  | none => simp only [expire_if_stale_pending, halt]
  | some o =>
    by_cases hc : o.status = .pending_payment ∧ o.registration_date + timeout < now
    · simp only [expire_if_stale_pending, halt, if_pos hc]
      exact cancel_order_lookup_ne h s
    · simp only [expire_if_stale_pending, halt, if_neg hc]

theorem expire_keys (timeout now oid : Nat) (s : DBState) :
    (expire_if_stale_pending timeout now oid s).orders.map Prod.fst
      = s.orders.map Prod.fst := by
  cases halt : alookup oid s.orders with
  | none => simp only [expire_if_stale_pending, halt]
  | some o =>
    by_cases hc : o.status = .pending_payment ∧ o.registration_date + timeout < now
    · simp only [expire_if_stale_pending, halt, if_pos hc]
      exact cancel_order_keys oid s
    · simp only [expire_if_stale_pending, halt, if_neg hc]

theorem expire_preserves_self_nonpending {timeout now oid : Nat} {s : DBState}
    {o' : Order} (ho : alookup oid s.orders = some o')
    (hnp : o'.status ≠ .pending_payment) (oid' : Nat) :
    alookup oid (expire_if_stale_pending timeout now oid' s).orders = some o' := by
  by_cases h : oid' = oid
  · subst h
    have hcond : ¬(o'.status = .pending_payment ∧
        o'.registration_date + timeout < now) := fun hc => hnp hc.1
    simp only [expire_if_stale_pending, ho, if_neg hcond]
  · rw [expire_lookup_ne h]
    exact ho

theorem expire_triggers {timeout now oid : Nat} {s : DBState} {o : Order}
    (ho : alookup oid s.orders = some o) (hp : o.status = .pending_payment)
    (hstale : o.registration_date + timeout < now) :
    alookup oid (expire_if_stale_pending timeout now oid s).orders
      = some { o with status := .cancelled } := by
  simp only [expire_if_stale_pending, ho, if_pos (And.intro hp hstale)]
  simp only [cancel_order, ho, if_pos (show o.status ∈ ACTIVE_STATUSES by rw [hp]; decide)]
  rw [alookup_aupdate_eq, ho]
  rfl

theorem fold_expire_preserves_nonpending (timeout now oid : Nat) :
    ∀ (ids : List Nat) (st : DBState) (o' : Order),
      alookup oid st.orders = some o' → o'.status ≠ .pending_payment →
      alookup oid
        (ids.foldl (fun st i => expire_if_stale_pending timeout now i st) st).orders
        = some o' := by
  intro ids
  induction ids with
  | nil => intro st o' ho _; simpa using ho
  | cons i rest ih =>
    intro st o' ho hnp
    simp only [List.foldl_cons]
    exact ih _ o' (expire_preserves_self_nonpending ho hnp i) hnp

theorem fold_expire_cancels (timeout now oid : Nat) :
    ∀ (ids : List Nat) (st : DBState),
      ((oid ∈ ids ∧ ∃ o, alookup oid st.orders = some o ∧
          o.status = .pending_payment ∧ o.registration_date + timeout < now) ∨
        (∃ o, alookup oid st.orders = some o ∧ o.status = .cancelled)) →
      ∃ o, alookup oid
          (ids.foldl (fun st i => expire_if_stale_pending timeout now i st) st).orders
          = some o ∧ o.status = .cancelled := by
  intro ids
  induction ids with
  | nil =>
    intro st h
    rcases h with ⟨hmem, _⟩ | hc
    · cases hmem
    · simpa using hc
  | cons i rest ih =>
    intro st h
    simp only [List.foldl_cons]
    rcases h with ⟨hmem, o, ho, hp, hstale⟩ | ⟨o, ho, hc⟩
    · by_cases hi : i = oid
      · subst hi
        exact ih _ (Or.inr ⟨{ o with status := .cancelled },
          expire_triggers ho hp hstale, rfl⟩)
      · have hmem' : oid ∈ rest := by
          rcases List.mem_cons.mp hmem with h1 | h1
          · exact absurd h1.symm hi
          · exact h1
        refine ih _ (Or.inl ⟨hmem', o, ?_, hp, hstale⟩)
        rw [expire_lookup_ne hi]
        exact ho
    · refine ih _ (Or.inr ⟨o, ?_, hc⟩)
      exact expire_preserves_self_nonpending ho (by rw [hc]; decide) i

theorem fold_expire_keys (timeout now : Nat) :
    ∀ (ids : List Nat) (st : DBState),
      (ids.foldl (fun st i => expire_if_stale_pending timeout now i st) st).orders.map
          Prod.fst
        = st.orders.map Prod.fst := by
  intro ids
  induction ids with
  | nil => intro st; rfl
  | cons i rest ih =>
    intro st
    simp only [List.foldl_cons]
    rw [ih, expire_keys]

/-! ### The claims -/

/-- C1: the claim asserts that `create_order` (Reserve) followed by
`cancel_order` (Release) restores every touched stock quantity and the buyer's
bonus balance exactly, for all requested-points inputs, including
`requestedPoints` greater than the balance or the goods total. The code
violates this: with balance 5, goods total 10 and requested points 7,
`create_order` debits the clamped `safe_bonus = 5` but stores the raw
`used_bonus = 7` on the order row, and `cancel_order` re-credits that raw
value, leaving the balance at 7 instead of 5; the stock quantity is restored. -/
theorem C1_roundtrip_balance_overcredit :
    alookup 7 exC1.bonuses = some 5 ∧
    (create_order 100 [(1, 1)] .pickup none 7 0 0 exC1).1 = (some 1, none) ∧
    alookup 7 (cancel_order 1 (create_order 100 [(1, 1)] .pickup none 7 0 0 exC1).2).bonuses
      = some 7 ∧
    (alookup 1 (cancel_order 1
        (create_order 100 [(1, 1)] .pickup none 7 0 0 exC1).2).stock).map
        ProductPosition.quantity
      = some 1 := by
  decide

/-- C3 counterexample: the claim asserts that no cancellation operation moves
an order from `transferring` to `cancelled`. Both `cancel_order` and
`admin_cancel` guard on `ACTIVE_STATUSES`, which contains `transferring`, so
a `transferring` order is cancelled by either. -/
theorem C3_transferring_cancellable_counterexample :
    (alookup 1 exC3.orders).map Order.status = some .transferring ∧
    (alookup 1 (cancel_order 1 exC3).orders).map Order.status = some .cancelled ∧
    (alookup 1 ((admin_cancel 1 9 exC3).2).orders).map Order.status = some .cancelled := by
  decide

/-- C4 counterexample: the claim asserts that `ready` is reachable only for
pickup orders. `admin_set_status` consults the fulfillment method only for
`finished`; for `ready` it accepts any `processing` order, so a delivery
order in `processing` is successfully moved to `ready`. -/
theorem C4_ready_for_delivery_counterexample :
    (alookup 1 exC4.orders).map Order.delivery_way = some .delivery ∧
    (alookup 1 exC4.orders).map Order.status = some .processing ∧
    (admin_set_status 1 .ready 9 exC4).1 = true ∧
    (alookup 1 ((admin_set_status 1 .ready 9 exC4).2).orders).map Order.status
      = some .ready := by
  decide

/-- C6: `sync_order_status_from_yandex` mutates at most `status` and
`finished_at` of orders: users, stock, bonuses, order items and the id counter
are unchanged, and every order keeps all its other fields. In particular no
stock or bonus release is performed even when the provider status maps to
`cancelled`. -/
theorem C6_sync_frame (oid : Nat) (y : String) (today : Nat) (s : DBState) :
    (sync_order_status_from_yandex oid y today s).2.users = s.users ∧
    (sync_order_status_from_yandex oid y today s).2.stock = s.stock ∧
    (sync_order_status_from_yandex oid y today s).2.bonuses = s.bonuses ∧
    (sync_order_status_from_yandex oid y today s).2.order_items = s.order_items ∧
    (sync_order_status_from_yandex oid y today s).2.next_order_id = s.next_order_id ∧
    ∀ k, (alookup k (sync_order_status_from_yandex oid y today s).2.orders).map Order.frame
        = (alookup k s.orders).map Order.frame := by
  cases hm : yandex_to_local_map y with
  | none =>
    simp [sync_order_status_from_yandex, hm]
  | some st =>
    simp only [sync_order_status_from_yandex, hm]
    refine ⟨trivial, trivial, trivial, trivial, trivial, fun k => ?_⟩
    by_cases hk : k = oid
    · subst hk
      rw [alookup_aupdate_eq]
      cases alookup k s.orders with
      | none => rfl
      | some o =>
        by_cases hc : o.status ≠ .finished ∧ o.status ≠ .cancelled
        · simp only [Option.map]
          rw [if_pos hc]
          rfl
        · simp only [Option.map]
          rw [if_neg hc]
    · rw [alookup_aupdate_ne (fun hh => hk hh.symm)]

/-- C7: the claim asserts the delivery sync job never aborts the batch early.
On the failing input below (order 1 with a `NULL` claim id listed before
order 2 whose claim reports the terminal status `delivered_finish`), the job
cancels order 1 and `return`s, so order 2 stays `transferring` even though
feeding its provider status to `sync_order_status_from_yandex` would have
finished it. -/
theorem C7_job_abort_on_missing_claim :
    (alookup 2 exC7.orders).map Order.status = some .transferring ∧
    (alookup 1 (check_delivery_statuses envC7 9 rowsC7 exC7).orders).map Order.status
      = some .cancelled ∧
    (alookup 2 (check_delivery_statuses envC7 9 rowsC7 exC7).orders).map Order.status
      = some .transferring ∧
    (alookup 2 ((sync_order_status_from_yandex 2 "delivered_finish" 9 exC7).2).orders).map
        Order.status
      = some .finished := by
  decide

/-- C10: `cancel_order` is idempotent — a second call after a first one is a
no-op on the whole state (no double credit of stock or points), because the
first call leaves the order outside `ACTIVE_STATUSES`. -/
theorem C10_cancel_idempotent (oid : Nat) (s : DBState) :
    cancel_order oid (cancel_order oid s) = cancel_order oid s := by
  cases ho : alookup oid s.orders with
  | none =>
    have h1 : cancel_order oid s = s := by simp only [cancel_order, ho]
    rw [h1]
    exact h1
  | some o =>
    by_cases hact : o.status ∈ ACTIVE_STATUSES
    · set s1 := cancel_order oid s with hs1
      have h2 : alookup oid s1.orders = some { o with status := .cancelled } := by
        rw [hs1]
        simp only [cancel_order, ho, if_pos hact]
        rw [alookup_aupdate_eq, ho]
        rfl
      have h3 : ({ o with status := .cancelled } : Order).status ∉ ACTIVE_STATUSES := by
        show Status.cancelled ∉ ACTIVE_STATUSES
        decide
      show cancel_order oid s1 = s1
      simp only [cancel_order, h2, if_neg h3]
    · have h1 : cancel_order oid s = s := by
        simp only [cancel_order, ho, if_neg hact]
      rw [h1]
      exact h1

/-- C8: when a cancellation is requested for an order that has a delivery
claim id, the claim info is available, and the provider's cancellation
eligibility is `paid`, `unavailable`, or cannot be determined, the request is
rejected with the structured reason and the whole database state is left
unchanged (status, stock and points untouched). -/
theorem C8_paid_cancellation_rejected_no_mutation
    (env : CancelEnv) (oid : Nat) (s : DBState) (o : Order) (cid : String)
    (vf : Option Nat)
    (ho : alookup oid s.orders = some o)
    (hclaim : o.yandex_claim_id = some cid)
    (hinfo : env.claim_info cid = some vf)
    (hcs : env.cancel_info cid = none ∨
      ∃ ci, env.cancel_info cid = some ci ∧
        (ci.cancel_state = "paid" ∨ ci.cancel_state = "unavailable")) :
    (order_cancel_yes env oid s).2 = s ∧
    (order_cancel_yes env oid s).1
      = .rejectedNotFree ((env.cancel_info cid).map CancelInfo.cancel_state)
          ((env.cancel_info cid).bind CancelInfo.price) := by
  rcases hcs with hnone | ⟨ci, hci, hstate⟩
  · simp only [order_cancel_yes, ho, hclaim, hinfo, hnone]
    constructor <;> trivial
  · have hfree : ¬(ci.cancel_state = "free") := by
      rcases hstate with h | h <;> rw [h] <;> decide
    simp only [order_cancel_yes, ho, hclaim, hinfo, hci, if_neg hfree]
    constructor <;> trivial

/-- C8 witness: order 1 carries claim `c8`, whose cancellation is `paid`
with fee 100; the handler rejects and mutates nothing. -/
theorem C8_paid_cancellation_rejected_no_mutation_witness :
    (alookup 1 exC8.orders = some oC8 ∧ oC8.yandex_claim_id = some "c8" ∧
      envC8.claim_info "c8" = some (some 2) ∧
      (envC8.cancel_info "c8" = none ∨
        ∃ ci, envC8.cancel_info "c8" = some ci ∧
          (ci.cancel_state = "paid" ∨ ci.cancel_state = "unavailable"))) ∧
    ((order_cancel_yes envC8 1 exC8).2 = exC8 ∧
      (order_cancel_yes envC8 1 exC8).1
        = .rejectedNotFree ((envC8.cancel_info "c8").map CancelInfo.cancel_state)
            ((envC8.cancel_info "c8").bind CancelInfo.price)) :=
  ⟨⟨by decide, by decide, by decide,
    Or.inr ⟨⟨"paid", some 100⟩, by decide, Or.inl rfl⟩⟩,
   C8_paid_cancellation_rejected_no_mutation envC8 1 exC8 oC8 "c8" (some 2)
     (by decide) (by decide) (by decide)
     (Or.inr ⟨⟨"paid", some 100⟩, by decide, Or.inl rfl⟩)⟩

/-- C9: during delivery claim creation, if `create_claim` succeeds but
`accept_claim` fails, the database is left unchanged — in particular the order
keeps its status (`processing`) and no claim id is recorded — and the outcome
is `acceptFailed`, not a successful handoff. Moreover, for any collaborator
behaviour, the helper mutates the database only when both `create_claim` and
`accept_claim` succeeded. -/
theorem C9_accept_failure_no_claim_persisted
    (env : DeliveryEnv) (oid : Nat) (s : DBState) (o : Order) (pr : BuyerProfile)
    (addr cid : String) (xy : Int × Int)
    (ho : alookup oid s.orders = some o)
    (hw : env.warehouse_ok = true)
    (hpr : env.profile = some pr)
    (hitems : (itemsOf oid s).isEmpty = false)
    (haddr : pr.address = some addr)
    (hgeo : env.geocode addr = some xy)
    (hcreate : env.create_claim = some cid)
    (haccept : env.accept_claim cid = false) :
    (create_yandex_delivery_claim env oid s).2 = s ∧
    (create_yandex_delivery_claim env oid s).1 = .acceptFailed ∧
    alookup oid ((create_yandex_delivery_claim env oid s).2).orders = some o ∧
    (∀ env2 : DeliveryEnv, (create_yandex_delivery_claim env2 oid s).2 ≠ s →
      ∃ cid2, env2.create_claim = some cid2 ∧ env2.accept_claim cid2 = true) := by
  have hmain : (create_yandex_delivery_claim env oid s) = (.acceptFailed, s) := by
    simp only [create_yandex_delivery_claim, ho, hw, if_pos, hpr, hitems,
      Bool.false_eq_true, haddr, hgeo, hcreate, haccept, if_true]
    exact rfl
  refine ⟨by rw [hmain], by rw [hmain], by rw [hmain]; exact ho, ?_⟩
  intro env2 hne
  by_cases hw2 : env2.warehouse_ok
  · cases hpr2 : env2.profile with
    | none =>
      exfalso
      exact hne (by simp only [create_yandex_delivery_claim, ho, if_pos hw2, hpr2])
    | some pr2 =>
      cases haddr2 : pr2.address with
      | none =>
        exfalso
        exact hne (by
          simp only [create_yandex_delivery_claim, ho, if_pos hw2, hpr2, hitems,
            Bool.false_eq_true, if_false, haddr2])
      | some addr2 =>
        cases hgeo2 : env2.geocode addr2 with
        | none =>
          exfalso
          exact hne (by
            simp only [create_yandex_delivery_claim, ho, if_pos hw2, hpr2, hitems,
              Bool.false_eq_true, if_false, haddr2, hgeo2])
        | some xy2 =>
          cases hcr2 : env2.create_claim with
          | none =>
            exfalso
            exact hne (by
              simp only [create_yandex_delivery_claim, ho, if_pos hw2, hpr2, hitems,
                Bool.false_eq_true, if_false, haddr2, hgeo2, hcr2])
          | some cid2 =>
            refine ⟨cid2, rfl, ?_⟩
            by_cases hac2 : env2.accept_claim cid2 = true
            · exact hac2
            · exfalso
              refine hne (by
                simp only [create_yandex_delivery_claim, ho, if_pos hw2, hpr2, hitems,
                  Bool.false_eq_true, if_false, haddr2, hgeo2, hcr2,
                  Bool.not_eq_true] at hac2 ⊢
                simp only [hac2, Bool.false_eq_true, if_false])
  · exfalso
    exact hne (by simp only [create_yandex_delivery_claim, ho, if_neg hw2])

/-- C9 witness: `create_claim` returns claim `cl`, `accept_claim` fails; the
state is untouched and no claim id is saved. -/
theorem C9_accept_failure_no_claim_persisted_witness :
    (alookup 1 exC9.orders = some oC9 ∧ envC9.warehouse_ok = true ∧
      envC9.profile = some ⟨some "addr"⟩ ∧ (itemsOf 1 exC9).isEmpty = false ∧
      (⟨some "addr"⟩ : BuyerProfile).address = some "addr" ∧
      envC9.geocode "addr" = some (1, 2) ∧ envC9.create_claim = some "cl" ∧
      envC9.accept_claim "cl" = false) ∧
    ((create_yandex_delivery_claim envC9 1 exC9).2 = exC9 ∧
      (create_yandex_delivery_claim envC9 1 exC9).1 = .acceptFailed ∧
      alookup 1 ((create_yandex_delivery_claim envC9 1 exC9).2).orders = some oC9 ∧
      (∀ env2 : DeliveryEnv, (create_yandex_delivery_claim env2 1 exC9).2 ≠ exC9 →
        ∃ cid2, env2.create_claim = some cid2 ∧ env2.accept_claim cid2 = true)) :=
  ⟨⟨by decide, by decide, by decide, by decide, by decide, by decide, by decide,
    by decide⟩,
   C9_accept_failure_no_claim_persisted envC9 1 exC9 oC9 ⟨some "addr"⟩ "addr" "cl"
     (1, 2) (by decide) (by decide) (by decide) (by decide) (by decide) (by decide)
     (by decide) (by decide)⟩

/-- C4 (amended): `admin_set_status` succeeds and updates the order iff the
current status is in the allowed-from set for the requested status, where the
fulfillment method is consulted only for transitions into `finished`
(`ready → finished` for pickup, `transferring → finished` for delivery);
`ready` and `transferring` are each reachable from `processing` for any
fulfillment method. For every disallowed pair it returns failure and leaves
the state unchanged; on success the status becomes the requested one and
`finished_at` is stamped for terminal targets. -/
theorem C4_admin_set_status_characterization
    (s : DBState) (oid today : Nat) (to_status : Status) (o : Order)
    (ho : alookup oid s.orders = some o) :
    ((admin_set_status oid to_status today s).1 = true ↔
      o.status ∈ allowedFromTable to_status o.delivery_way) ∧
    ((admin_set_status oid to_status today s).1 = false →
      (admin_set_status oid to_status today s).2 = s) ∧
    ((admin_set_status oid to_status today s).1 = true →
      alookup oid ((admin_set_status oid to_status today s).2).orders
        = some { o with
            status := to_status
            finished_at :=
              if to_status = .finished ∨ to_status = .cancelled then some today
              else o.finished_at }) := by
  by_cases hmem : o.status ∈ allowedFromTable to_status o.delivery_way
  · simp only [admin_set_status, ho, if_pos hmem]
    refine ⟨by simp [hmem], by simp, fun _ => ?_⟩
    rw [alookup_aupdate_eq, ho]
    simp only [Option.map]
    rw [if_pos hmem]
  · simp only [admin_set_status, ho, if_neg hmem]
    exact ⟨by simp [hmem], by simp, by simp⟩

/-- C4 witness: a pickup order in `processing` is successfully advanced to
`ready`. -/
theorem C4_admin_set_status_characterization_witness :
    (alookup 1 exC4w.orders = some oC4w) ∧
    (((admin_set_status 1 .ready 9 exC4w).1 = true ↔
        oC4w.status ∈ allowedFromTable .ready oC4w.delivery_way) ∧
      ((admin_set_status 1 .ready 9 exC4w).1 = false →
        (admin_set_status 1 .ready 9 exC4w).2 = exC4w) ∧
      ((admin_set_status 1 .ready 9 exC4w).1 = true →
        alookup 1 ((admin_set_status 1 .ready 9 exC4w).2).orders
          = some { oC4w with
              status := .ready
              finished_at :=
                if (Status.ready = .finished ∨ Status.ready = .cancelled) then some 9
                else oC4w.finished_at })) :=
  ⟨by decide, C4_admin_set_status_characterization exC4w 1 9 .ready oC4w (by decide)⟩

/-- C5: for every successful order creation with a nonnegative
requested-points value, a nonnegative balance and a nonnegative goods total
(the data-model invariants), the points actually debited from the buyer's
balance are at most the requested points, at most the balance at creation,
and at most the goods total at creation — so they can never offset the
delivery cost. -/
theorem C5_applied_points_clamped
    (tg : Nat) (items : List (Nat × Int)) (way : Way) (address : Option String)
    (used_bonus delivery_cost : Int) (today : Nat) (s : DBState) (uid : Nat)
    (hu : alookup tg s.users = some uid)
    (hub : 0 ≤ used_bonus)
    (hbal : 0 ≤ (alookup uid s.bonuses).getD 0)
    (htot : 0 ≤ goodsTotal items s.stock)
    (hsucc : ((create_order tg items way address used_bonus delivery_cost today s).1).2
      = none) :
    (alookup uid s.bonuses).getD 0 -
        (alookup uid ((create_order tg items way address used_bonus delivery_cost
            today s).2).bonuses).getD 0
      ≤ used_bonus ∧
    (alookup uid s.bonuses).getD 0 -
        (alookup uid ((create_order tg items way address used_bonus delivery_cost
            today s).2).bonuses).getD 0
      ≤ (alookup uid s.bonuses).getD 0 ∧
    (alookup uid s.bonuses).getD 0 -
        (alookup uid ((create_order tg items way address used_bonus delivery_cost
            today s).2).bonuses).getD 0
      ≤ goodsTotal items s.stock := by
  by_cases hne : items.isEmpty
  · simp [create_order, hne] at hsucc
  · by_cases hmiss :
      ((items.map Prod.fst).filter (fun pid => (alookup pid s.stock).isNone)).isEmpty
    · by_cases hlack :
        (((items.filter (fun pq =>
            match alookup pq.1 s.stock with
            | some p => pq.2 > p.quantity
            | none => false)).map Prod.fst)).isEmpty
      · simp only [create_order, if_neg hne, hu, if_pos hmiss, if_pos hlack]
        by_cases hpos : min (min (max used_bonus 0) ((alookup uid s.bonuses).getD 0))
            (goodsTotal items s.stock) > 0
        · rw [if_pos hpos]
          cases hb : alookup uid s.bonuses with
          | none =>
            rw [alookup_aupdate_eq, hb]
            simp only [Option.map, Option.getD]
            omega
          | some b =>
            rw [hb] at hbal
            simp only [Option.getD] at hbal
            rw [alookup_aupdate_eq, hb]
            simp only [Option.map, Option.getD, hb]
            have h1 : min (min (max used_bonus 0) b) (goodsTotal items s.stock)
                ≤ max used_bonus 0 :=
              le_trans (min_le_left _ _) (min_le_left _ _)
            have h2 : min (min (max used_bonus 0) b) (goodsTotal items s.stock) ≤ b :=
              le_trans (min_le_left _ _) (min_le_right _ _)
            have h3 : min (min (max used_bonus 0) b) (goodsTotal items s.stock)
                ≤ goodsTotal items s.stock := min_le_right _ _
            have hub' : max used_bonus 0 = used_bonus := max_eq_left hub
            rw [hub'] at h1
            have hmax : max (b - min (min (max used_bonus 0) b)
                (goodsTotal items s.stock)) 0
                = b - min (min (max used_bonus 0) b) (goodsTotal items s.stock) :=
              max_eq_left (by omega)
            rw [hmax]
            omega
        · rw [if_neg hpos]
          refine ⟨by omega, by omega, by omega⟩
      · simp [create_order, hne, hu, hmiss, hlack] at hsucc
    · simp [create_order, hne, hu, hmiss] at hsucc

/-- C5 witness: buyer 100 (balance 5) orders two units of position 1
(price 10) requesting 3 points; the debit is 3 ≤ min(3, 5, 20). -/
theorem C5_applied_points_clamped_witness :
    (alookup 100 exC5.users = some 7 ∧ (0 : Int) ≤ 3 ∧
      (0 : Int) ≤ (alookup 7 exC5.bonuses).getD 0 ∧
      (0 : Int) ≤ goodsTotal [(1, 2)] exC5.stock ∧
      ((create_order 100 [(1, 2)] .pickup none 3 0 0 exC5).1).2 = none) ∧
    ((alookup 7 exC5.bonuses).getD 0 -
        (alookup 7 ((create_order 100 [(1, 2)] .pickup none 3 0 0 exC5).2).bonuses).getD 0
      ≤ 3 ∧
    (alookup 7 exC5.bonuses).getD 0 -
        (alookup 7 ((create_order 100 [(1, 2)] .pickup none 3 0 0 exC5).2).bonuses).getD 0
      ≤ (alookup 7 exC5.bonuses).getD 0 ∧
    (alookup 7 exC5.bonuses).getD 0 -
        (alookup 7 ((create_order 100 [(1, 2)] .pickup none 3 0 0 exC5).2).bonuses).getD 0
      ≤ goodsTotal [(1, 2)] exC5.stock) :=
  ⟨⟨by decide, by decide, by decide, by decide, by decide⟩,
   C5_applied_points_clamped 100 [(1, 2)] .pickup none 3 0 0 exC5 7
     (by decide) (by decide) (by decide) (by decide) (by decide)⟩

/-- A terminal status is in no allowed-from set of `admin_set_status`. -/
theorem terminal_not_in_allowedFromTable {st : Status}
    (hst : st = .finished ∨ st = .cancelled) (t : Status) (w : Way) :
    st ∉ allowedFromTable t w := by
  rcases hst with h | h <;> subst h <;> cases t <;> cases w <;> decide

/-- A terminal status is not active. -/
theorem terminal_not_active {st : Status}
    (hst : st = .finished ∨ st = .cancelled) : st ∉ ACTIVE_STATUSES := by
  rcases hst with h | h <;> subst h <;> decide

/-- C3 (amended): `finished` and `cancelled` are terminal — every operation
is a full no-op on an order in a terminal status. `cancelled` is produced by
`cancel_order` and `admin_cancel` exactly from the four `ACTIVE_STATUSES`
(which include `transferring`), never by `admin_set_status` or the mark-paid
updates, and by the Yandex sync exactly from non-terminal statuses. -/
theorem C3_terminality_and_cancel_sources
    (s : DBState) (oid today pd : Nat) (to_status : Status) (pj y : String)
    (o : Order)
    (hnd : (s.orders.map Prod.fst).Nodup)
    (ho : alookup oid s.orders = some o) :
    ((o.status = .finished ∨ o.status = .cancelled) →
      cancel_order oid s = s ∧
      (admin_cancel oid today s).2 = s ∧
      (admin_set_status oid to_status today s).2 = s ∧
      mark_order_as_paid oid pj pd s = s ∧
      (mark_order_as_paid_by_bonus oid pd s).2 = s ∧
      (sync_order_status_from_yandex oid y today s).2 = s) ∧
    (o.status ∉ ACTIVE_STATUSES →
      cancel_order oid s = s ∧ (admin_cancel oid today s).2 = s) ∧
    (o.status ∈ ACTIVE_STATUSES →
      (∃ o1, alookup oid (cancel_order oid s).orders = some o1 ∧
        o1.status = .cancelled) ∧
      (∃ o2, alookup oid ((admin_cancel oid today s).2).orders = some o2 ∧
        o2.status = .cancelled)) ∧
    (∀ o', alookup oid ((admin_set_status oid to_status today s).2).orders = some o' →
      o'.status = .cancelled → o.status = .cancelled) ∧
    (∀ o', alookup oid (mark_order_as_paid oid pj pd s).orders = some o' →
      o'.status = .cancelled → o.status = .cancelled) ∧
    (∀ o', alookup oid ((mark_order_as_paid_by_bonus oid pd s).2).orders = some o' →
      o'.status = .cancelled → o.status = .cancelled) ∧
    (∀ o', alookup oid ((sync_order_status_from_yandex oid y today s).2).orders
        = some o' → o'.status = .cancelled →
      (o.status = .cancelled ∨ (o.status ≠ .finished ∧ o.status ≠ .cancelled))) := by
  have hcancel_noop : o.status ∉ ACTIVE_STATUSES → cancel_order oid s = s :=
    fun hact => by simp only [cancel_order, ho, if_neg hact]
  have hadmin_noop : o.status ∉ ACTIVE_STATUSES → (admin_cancel oid today s).2 = s := by
    intro hact
    have hfix : aupdate oid
        (fun o =>
          if o.status ∈ ACTIVE_STATUSES then
            { o with status := .cancelled, finished_at := some today }
          else o) s.orders = s.orders := by
      apply aupdate_fix hnd
      intro v hv
      rw [ho] at hv
      injection hv with hv'
      subst hv'
      rw [if_neg hact]
    simp only [admin_cancel, hfix]
  refine ⟨?_, ?_, ?_, ?_, ?_, ?_, ?_⟩
  · intro hterm
    have hact : o.status ∉ ACTIVE_STATUSES := terminal_not_active hterm
    have hpend : o.status ≠ .pending_payment := by
      rcases hterm with h | h <;> rw [h] <;> decide
    refine ⟨hcancel_noop hact, hadmin_noop hact, ?_, ?_, ?_, ?_⟩
    · have hnmem : o.status ∉ allowedFromTable to_status o.delivery_way :=
        terminal_not_in_allowedFromTable hterm _ _
      simp only [admin_set_status, ho, if_neg hnmem]
    · have hfix : aupdate oid
          (fun o =>
            if o.status = .pending_payment then
              { o with
                status := .processing
                payment_date := some pd
                payment_info := some pj }
            else o) s.orders = s.orders := by
        apply aupdate_fix hnd
        intro v hv
        rw [ho] at hv
        injection hv with hv'
        subst hv'
        rw [if_neg hpend]
      simp only [mark_order_as_paid, hfix]
    · have hfix : aupdate oid
          (fun o =>
            if o.status = .pending_payment then
              { o with status := .processing, payment_date := some pd }
            else o) s.orders = s.orders := by
        apply aupdate_fix hnd
        intro v hv
        rw [ho] at hv
        injection hv with hv'
        subst hv'
        rw [if_neg hpend]
      simp only [mark_order_as_paid_by_bonus, hfix]
    · cases hm : yandex_to_local_map y with
      | none => simp only [sync_order_status_from_yandex, hm]
      | some st =>
        have hc : ¬(o.status ≠ .finished ∧ o.status ≠ .cancelled) :=
          fun hcc => hterm.elim (fun h => hcc.1 h) (fun h => hcc.2 h)
        have hfix : aupdate oid
            (fun o =>
              if o.status ≠ .finished ∧ o.status ≠ .cancelled then
                { o with status := st, finished_at := some today }
              else o) s.orders = s.orders := by
          apply aupdate_fix hnd
          intro v hv
          rw [ho] at hv
          injection hv with hv'
          subst hv'
          rw [if_neg hc]
        simp only [sync_order_status_from_yandex, hm, hfix]
  · exact fun hact => ⟨hcancel_noop hact, hadmin_noop hact⟩
  · intro hact
    constructor
    · simp only [cancel_order, ho, if_pos hact]
      rw [alookup_aupdate_eq, ho]
      exact ⟨_, rfl, rfl⟩
    · simp only [admin_cancel]
      rw [alookup_aupdate_eq, ho]
      simp only [Option.map]
      rw [if_pos hact]
      exact ⟨_, rfl, rfl⟩
  · intro o' hlk hc'
    by_cases hmem : o.status ∈ allowedFromTable to_status o.delivery_way
    · simp only [admin_set_status, ho, if_pos hmem] at hlk
      rw [alookup_aupdate_eq, ho] at hlk
      simp only [Option.map] at hlk
      rw [if_pos hmem] at hlk
      injection hlk with hlk'
      rw [← hlk'] at hc'
      have hts : to_status = .cancelled := hc'
      exfalso
      rw [hts] at hmem
      have hempty : allowedFromTable .cancelled o.delivery_way = [] := rfl
      rw [hempty] at hmem
      exact (List.not_mem_nil _) hmem
    · simp only [admin_set_status, ho, if_neg hmem] at hlk
      injection hlk with hlk'
      rw [hlk']
      exact hc'
  · intro o' hlk hc'
    simp only [mark_order_as_paid] at hlk
    rw [alookup_aupdate_eq, ho] at hlk
    simp only [Option.map] at hlk
    by_cases hp : o.status = .pending_payment
    · rw [if_pos hp] at hlk
      injection hlk with hlk'
      exfalso
      rw [← hlk'] at hc'
      exact Status.noConfusion hc'
    · rw [if_neg hp] at hlk
      injection hlk with hlk'
      rw [hlk']
      exact hc'
  · intro o' hlk hc'
    simp only [mark_order_as_paid_by_bonus] at hlk
    rw [alookup_aupdate_eq, ho] at hlk
    simp only [Option.map] at hlk
    by_cases hp : o.status = .pending_payment
    · rw [if_pos hp] at hlk
      injection hlk with hlk'
      exfalso
      rw [← hlk'] at hc'
      exact Status.noConfusion hc'
    · rw [if_neg hp] at hlk
      injection hlk with hlk'
      rw [hlk']
      exact hc'
  · intro o' hlk hc'
    cases hm : yandex_to_local_map y with
    | none =>
      simp only [sync_order_status_from_yandex, hm] at hlk
      rw [ho] at hlk
      injection hlk with hlk'
      exact Or.inl (by rw [hlk']; exact hc')
    | some st =>
      simp only [sync_order_status_from_yandex, hm] at hlk
      rw [alookup_aupdate_eq, ho] at hlk
      simp only [Option.map] at hlk
      by_cases hcnd : o.status ≠ .finished ∧ o.status ≠ .cancelled
      · exact Or.inr hcnd
      · rw [if_neg hcnd] at hlk
        injection hlk with hlk'
        exact Or.inl (by rw [hlk']; exact hc')

/-- C3 witness: instantiation at a one-order state whose order is `finished`. -/
theorem C3_terminality_and_cancel_sources_witness :
    ((exC3w.orders.map Prod.fst).Nodup ∧ alookup 1 exC3w.orders = some oC3w) ∧
    (((oC3w.status = .finished ∨ oC3w.status = .cancelled) →
      cancel_order 1 exC3w = exC3w ∧
      (admin_cancel 1 8 exC3w).2 = exC3w ∧
      (admin_set_status 1 .ready 8 exC3w).2 = exC3w ∧
      mark_order_as_paid 1 "p" 8 exC3w = exC3w ∧
      (mark_order_as_paid_by_bonus 1 8 exC3w).2 = exC3w ∧
      (sync_order_status_from_yandex 1 "failed" 8 exC3w).2 = exC3w) ∧
    (oC3w.status ∉ ACTIVE_STATUSES →
      cancel_order 1 exC3w = exC3w ∧ (admin_cancel 1 8 exC3w).2 = exC3w) ∧
    (oC3w.status ∈ ACTIVE_STATUSES →
      (∃ o1, alookup 1 (cancel_order 1 exC3w).orders = some o1 ∧
        o1.status = .cancelled) ∧
      (∃ o2, alookup 1 ((admin_cancel 1 8 exC3w).2).orders = some o2 ∧
        o2.status = .cancelled)) ∧
    (∀ o', alookup 1 ((admin_set_status 1 .ready 8 exC3w).2).orders = some o' →
      o'.status = .cancelled → oC3w.status = .cancelled) ∧
    (∀ o', alookup 1 (mark_order_as_paid 1 "p" 8 exC3w).orders = some o' →
      o'.status = .cancelled → oC3w.status = .cancelled) ∧
    (∀ o', alookup 1 ((mark_order_as_paid_by_bonus 1 8 exC3w).2).orders = some o' →
      o'.status = .cancelled → oC3w.status = .cancelled) ∧
    (∀ o', alookup 1 ((sync_order_status_from_yandex 1 "failed" 8 exC3w).2).orders
        = some o' → o'.status = .cancelled →
      (oC3w.status = .cancelled ∨
        (oC3w.status ≠ .finished ∧ oC3w.status ≠ .cancelled)))) :=
  ⟨⟨by decide, by decide⟩,
   C3_terminality_and_cancel_sources exC3w 1 8 8 .ready "p" "failed" oC3w
     (by decide) (by decide)⟩

/-- C2: (spec-modelled stale-expiry job.) Every order still `pending_payment`
and older than the timeout is cancelled by one run of
`cancel_old_pending_orders`, and a late payment confirmation and the expiry
are mutually exclusive: if `mark_order_as_paid` runs first, the job leaves the
paid order untouched (it stays `processing`); if the job runs first, the late
`mark_order_as_paid` is a no-op on the whole state — at most one of the two
guarded transitions wins. -/
theorem C2_stale_expiry_exclusivity
    (s : DBState) (timeout now pd : Nat) (pj : String) (oid : Nat) (o : Order)
    (hnd : (s.orders.map Prod.fst).Nodup)
    (ho : alookup oid s.orders = some o)
    (hp : o.status = .pending_payment)
    (hstale : o.registration_date + timeout < now) :
    (∃ o', alookup oid (cancel_old_pending_orders timeout now s).orders = some o' ∧
      o'.status = .cancelled) ∧
    (alookup oid (cancel_old_pending_orders timeout now
        (mark_order_as_paid oid pj pd s)).orders
      = some { o with
          status := .processing
          payment_date := some pd
          payment_info := some pj }) ∧
    (mark_order_as_paid oid pj pd (cancel_old_pending_orders timeout now s)
      = cancel_old_pending_orders timeout now s) := by
  have h1 : ∃ o', alookup oid (cancel_old_pending_orders timeout now s).orders
      = some o' ∧ o'.status = .cancelled := by
    simp only [cancel_old_pending_orders]
    exact fold_expire_cancels timeout now oid _ s
      (Or.inl ⟨alookup_mem_keys ho, o, ho, hp, hstale⟩)
  refine ⟨h1, ?_, ?_⟩
  · have hm : alookup oid (mark_order_as_paid oid pj pd s).orders
        = some { o with
            status := .processing
            payment_date := some pd
            payment_info := some pj } := by
      simp only [mark_order_as_paid]
      rw [alookup_aupdate_eq, ho]
      simp only [Option.map]
      rw [if_pos hp]
    simp only [cancel_old_pending_orders]
    exact fold_expire_preserves_nonpending timeout now oid _ _ _ hm
      (fun hh => Status.noConfusion hh)
  · obtain ⟨oc, hoc, hocs⟩ := h1
    have hkeys : (cancel_old_pending_orders timeout now s).orders.map Prod.fst
        = s.orders.map Prod.fst := by
      simp only [cancel_old_pending_orders]
      exact fold_expire_keys timeout now _ s
    have hnd' : ((cancel_old_pending_orders timeout now s).orders.map Prod.fst).Nodup := by
      rw [hkeys]
      exact hnd
    have hfix : aupdate oid
        (fun o =>
          if o.status = .pending_payment then
            { o with
              status := .processing
              payment_date := some pd
              payment_info := some pj }
          else o) (cancel_old_pending_orders timeout now s).orders
        = (cancel_old_pending_orders timeout now s).orders := by
      apply aupdate_fix hnd'
      intro v hv
      rw [hoc] at hv
      injection hv with hv'
      subst hv'
      have hne : ¬(oc.status = Status.pending_payment) := by
        rw [hocs]
        decide
      rw [if_neg hne]
    simp only [mark_order_as_paid, hfix]

/-- C2 witness: order 1 registered at time 0, still pending at time 16 with a
15-minute timeout. -/
theorem C2_stale_expiry_exclusivity_witness :
    ((exC2.orders.map Prod.fst).Nodup ∧ alookup 1 exC2.orders = some oC2 ∧
      oC2.status = .pending_payment ∧ oC2.registration_date + 15 < 16) ∧
    ((∃ o', alookup 1 (cancel_old_pending_orders 15 16 exC2).orders = some o' ∧
      o'.status = .cancelled) ∧
    (alookup 1 (cancel_old_pending_orders 15 16
        (mark_order_as_paid 1 "p" 2 exC2)).orders
      = some { oC2 with
          status := .processing
          payment_date := some 2
          payment_info := some "p" }) ∧
    (mark_order_as_paid 1 "p" 2 (cancel_old_pending_orders 15 16 exC2)
      = cancel_old_pending_orders 15 16 exC2)) :=
  ⟨⟨by decide, by decide, by decide, by decide⟩,
   C2_stale_expiry_exclusivity exC2 15 16 2 "p" 1 oC2
     (by decide) (by decide) (by decide) (by decide)⟩

end BerryBot
